import Mathlib

/-!
Verification of the club-website data-access core: the remote request
envelope (`apiRequest`), the per-resource read-fallback and write modules
(`worksApi`, `messageApi`, `votingApi`, `knowledgeApi`), the session manager
(`ensureAdminExists`, `login`, `register`, `isAdmin`), and the image-viewer
zoom clamp.  Functions are shallowly embedded from the TypeScript sources:
network and clock nondeterminism become explicit parameters, the browser
key-value store becomes an explicit state value threaded through each
operation, and JS exceptions become `Except`.
-/

namespace Club

/-- The uniform result envelope `ApiResponse<T> = { success, data?, error? }`.
An absent optional field is `none`. -/
structure Envelope (α : Type) where
  success : Bool
  data : Option α := none
  error : Option String := none
  deriving DecidableEq, Repr

/-- The outcome of one `fetch` call as seen by `apiRequest`:
either the promise rejects (carrying the thrown value's `message` when it is
an `Error`, else `none`), or it resolves to a response with an `ok` flag, a
status code, and the result of `response.json()` (which itself may reject). -/
inductive FetchOutcome (α : Type) where
  | reject (e : Option String)
  | resp (ok : Bool) (status : Nat) (json : Except (Option String) (Envelope α))

/-- The message of the error thrown on a non-ok HTTP status:
"API请求失败: " followed by the status ("API request failed: <status>"). -/
def statusMsg (status : Nat) : String := "API请求失败: " ++ toString status

/-- The error string returned in dev mode: "API服务不可用，正在使用本地存储"
("service unavailable, falling back to local storage"). -/
def devFallbackMsg : String := "API服务不可用，正在使用本地存储"

/-- The error string used when the caught value is not an `Error`:
"未知错误" ("unknown error"). -/
def unknownErrorMsg : String := "未知错误"

/-- The body of `apiRequest`'s `try` block: await the fetch (a rejection
propagates), throw an `Error` with `statusMsg` on a non-ok status, otherwise
return the awaited `response.json()` (whose rejection also propagates). -/
def apiRequestTry {α : Type} : FetchOutcome α → Except (Option String) (Envelope α)
  | .reject e => .error e
  | .resp ok status json => if ok then json else .error (some (statusMsg status))

/-- `apiRequest` from the API service module: the `try` block above plus the
`catch` handler, which in dev mode (`import.meta.env.DEV`, the `isDev`
parameter) returns the dev fallback envelope and otherwise returns the caught
`Error`'s message (or `unknownErrorMsg` for a non-`Error` value).  The result
is a total function into `Envelope`: every failure is a value, none escapes. -/
def apiRequest {α : Type} (isDev : Bool) (f : FetchOutcome α) : Envelope α :=
  match apiRequestTry f with
  | .ok env => env
  | .error e =>
      if isDev then { success := false, error := some devFallbackMsg }
      else { success := false, error := some (e.getD unknownErrorMsg) }

/-- A cache store: the browser's string-keyed store, restricted to one payload
type.  `localStorage.getItem(key)` followed by `JSON.parse` is modelled as the
already-decoded option; a missing key, an empty string (falsy in the source's
`if (saved)` test) and a parse failure (caught in the source) all collapse to
`none`. -/
def CacheStore (α : Type) : Type := String → Option α

def submittedWorksKey : String := "submittedWorks"

def featuredWorksKey : String := "featuredWorks"

def messagesKey : String := "messages"

def votingActivitiesKey : String := "votingActivities"

def photographyKnowledgeKey : String := "photographyKnowledge"

/-- The shared body of every read operation: if the envelope from the remote
call failed, and a cached value decodes under the resource key, return
`{success: true, data: cached}`; otherwise return the remote envelope. -/
def readWithLocalFallback {α : Type} (result : Envelope α) (cached : Option α) :
    Envelope α :=
  if result.success then result
  else
    match cached with
    | some v => { success := true, data := some v }
    | none => result

/-- `worksApi.getSubmittedWorks`: remote call, then fallback to the
`submittedWorks` cache key. -/
def getSubmittedWorks {α : Type} (isDev : Bool) (f : FetchOutcome α)
    (store : CacheStore α) : Envelope α :=
  readWithLocalFallback (apiRequest isDev f) (store submittedWorksKey)

/-- `worksApi.getFeaturedWorks`: remote call, then fallback to the
`featuredWorks` cache key. -/
def getFeaturedWorks {α : Type} (isDev : Bool) (f : FetchOutcome α)
    (store : CacheStore α) : Envelope α :=
  readWithLocalFallback (apiRequest isDev f) (store featuredWorksKey)

/-- `messageApi.getMessages`: remote call, then fallback to the `messages`
cache key. -/
def getMessages {α : Type} (isDev : Bool) (f : FetchOutcome α)
    (store : CacheStore α) : Envelope α :=
  readWithLocalFallback (apiRequest isDev f) (store messagesKey)

/-- `votingApi.getActivities`: remote call, then fallback to the
`votingActivities` cache key. -/
def getActivities {α : Type} (isDev : Bool) (f : FetchOutcome α)
    (store : CacheStore α) : Envelope α :=
  readWithLocalFallback (apiRequest isDev f) (store votingActivitiesKey)

/-- `knowledgeApi.getKnowledgeItems`: remote call, then fallback to the
`photographyKnowledge` cache key. -/
def getKnowledgeItems {α : Type} (isDev : Bool) (f : FetchOutcome α)
    (store : CacheStore α) : Envelope α :=
  readWithLocalFallback (apiRequest isDev f) (store photographyKnowledgeKey)

/-- `worksApi.submitWork`: delegates to `apiRequest` alone; the cache store is
threaded through untouched because the source body never reads or writes it. -/
def submitWork {α : Type} (work : α) (isDev : Bool) (f : FetchOutcome α)
    (store : CacheStore α) : Envelope α × CacheStore α :=
  (apiRequest isDev f, store)

/-- `messageApi.postMessage`: delegates to `apiRequest` alone; no store
access in the source body. -/
def postMessage {α : Type} (message : α) (isDev : Bool) (f : FetchOutcome α)
    (store : CacheStore α) : Envelope α × CacheStore α :=
  (apiRequest isDev f, store)

/-- `votingApi.vote`: delegates to `apiRequest` alone; no store access in the
source body. -/
def vote {α : Type} (activityId : String) (workId : Int) (isDev : Bool)
    (f : FetchOutcome α) (store : CacheStore α) : Envelope α × CacheStore α :=
  (apiRequest isDev f, store)

/-- The server body delivered by a fetch outcome, when one is: only an
`ok` response whose JSON decodes yields a body that `apiRequest` passes
through verbatim. -/
def bodyOf {α : Type} : FetchOutcome α → Option (Envelope α)
  | .resp true _ (.ok b) => some b
  | _ => none

/-- The envelope invariant of the spec: `success = true` iff `data` present. -/
def envelopeWF {α : Type} (e : Envelope α) : Prop := e.data.isSome = e.success

/-- `envelopeWF` for an optional envelope; `none` holds vacuously. -/
def optWF {α : Type} : Option (Envelope α) → Prop
  | none => True
  | some b => envelopeWF b

/-- `role ∈ {admin, user}` of the `User` interface. -/
inductive Role where
  | admin
  | user
  deriving DecidableEq, Repr

/-- `userType ∈ {student, teacher}` of the `User` interface. -/
inductive UserType where
  | student
  | teacher
  deriving DecidableEq, Repr

/-- A user record as the auth context handles it.  The optional `userType` and
`password` fields model the presence or absence of those JS object fields:
roster records persisted under the `users` key carry `password := some _`,
a stripped session user carries `password := none`. -/
structure StoredUser where
  id : String
  username : String
  phone : String
  role : Role
  userType : Option UserType := none
  createdAt : String
  password : Option String := none
  deriving DecidableEq, Repr

/-- The reserved admin phone number, `DEFAULT_ADMIN.phone`. -/
def adminPhone : String := "13800138000"

/-- `DEFAULT_ADMIN` from the auth context.  Its `createdAt` is the
module-load-time clock, passed here as a parameter. -/
def DEFAULT_ADMIN (createdAt : String) : StoredUser :=
  { id := "admin-001", username := "管理员", phone := adminPhone,
    role := Role.admin, userType := none, createdAt := createdAt,
    password := none }

/-- The typed view of the keys of the browser store that the session manager
touches: the `users` roster key and the `currentUser` key.  `none` models a
missing key. -/
structure LocalStore where
  users : Option (List StoredUser) := none
  currentUser : Option StoredUser := none
  deriving DecidableEq, Repr

/-- Modelled from the spec: `safeLocalStorageGet(key, fallback)` from
`src/lib/utils` (absent from the given sources), per spec §4.2 — reads and
decodes the value at the key, returning `fallback` on a missing key, decode
failure or store unavailability, never raising.  Specialised to the `users`
key of the typed store; the failure modes collapse to the `none` case. -/
def safeLocalStorageGetUsers (store : LocalStore) (fallback : List StoredUser) :
    List StoredUser :=
  store.users.getD fallback

/-- Modelled from the spec: `safeLocalStorageSet(key, value)` from
`src/lib/utils` (absent from the given sources), per spec §4.2 — encodes and
writes, never raising.  Specialised to the `users` key; the quota-failure
mode (report `false`, leave the store unchanged) is not modelled: writes are
taken to succeed. -/
def safeLocalStorageSetUsers (store : LocalStore) (v : List StoredUser) :
    LocalStore :=
  { store with users := some v }

/-- Modelled from the spec: `safeLocalStorageSet('currentUser', value)`, as
`safeLocalStorageSetUsers` but for the `currentUser` key.  Raw
`localStorage.setItem('currentUser', JSON.stringify(v))` calls in the source
are modelled identically. -/
def setCurrentUser (store : LocalStore) (v : StoredUser) : LocalStore :=
  { store with currentUser := some v }

/-- `ensureAdminExists`: read the roster (default `[]`), and when no record
has `role === 'admin'` and the reserved phone, append `DEFAULT_ADMIN` with
the default password `admin123` and persist. -/
def ensureAdminExists (now : String) (store : LocalStore) : LocalStore :=
  let users := safeLocalStorageGetUsers store []
  let adminExists := users.any fun u =>
    u.role == Role.admin && u.phone == adminPhone
  if adminExists then store
  else
    let adminWithPassword := { DEFAULT_ADMIN now with password := some "admin123" }
    safeLocalStorageSetUsers store (users ++ [adminWithPassword])

/-- How many roster records have `role = admin` and the reserved phone. -/
def countReservedAdmins (users : List StoredUser) : Nat :=
  users.countP fun u => u.role == Role.admin && u.phone == adminPhone

/-- The in-memory session state owned by the auth hook:
`isAuthenticated` and `user`. -/
structure SimState where
  isAuthenticated : Bool := false
  user : Option StoredUser := none
  deriving DecidableEq, Repr

/-- `const { password: _, ...userWithoutPassword } = u`. -/
def stripPassword (u : StoredUser) : StoredUser := { u with password := none }

/-- `isAdmin`: `user?.role === 'admin'`. -/
def isAdmin (s : SimState) : Bool :=
  match s.user with
  | some u => u.role == Role.admin
  | none => false

/-- `login(phone, password)`.  The remote call's envelope is the `remote`
parameter; the result is `(returned boolean, new session state, new store)`.
On `result.success && result.data` the remote user is adopted verbatim and
persisted as `currentUser`; otherwise the roster is scanned for a record with
matching `phone` and `password` (plain equality), which is adopted and
persisted with the password field stripped; otherwise `false` with nothing
changed.  The surrounding `try`/`catch` (which converts store corruption to
`false`) is not reachable here because the store model is total. -/
def login (phone password : String) (remote : Envelope StoredUser)
    (s : SimState) (store : LocalStore) : Bool × SimState × LocalStore :=
  match remote.success, remote.data with
  | true, some u =>
      (true, { isAuthenticated := true, user := some u }, setCurrentUser store u)
  | _, _ =>
      let users := safeLocalStorageGetUsers store []
      match users.find? (fun u => u.phone == phone && u.password == some password) with
      | some found =>
          let u := stripPassword found
          (true, { isAuthenticated := true, user := some u }, setCurrentUser store u)
      | none => (false, s, store)

/-- JS `一-龥`, the CJK range of the two username regexes. -/
def isCJK (c : Char) : Bool :=
  0x4e00 ≤ c.toNat && c.toNat ≤ 0x9fa5

/-- The character class `[班|級]` of the student regex: a JS character class,
so it accepts the three literal characters `班`, `|` and `級`. -/
def isSepChar (c : Char) : Bool := c == '班' || c == '|' || c == '級'

/-- The tail `[1-9]\d*[班|級][一-龥]+$` of the student regex.  The
greedy split below is the unique one: digits, the class characters and the
CJK name range are pairwise disjoint except that `班` and `級` are themselves
CJK, which only adds parses of strings this split already accepts. -/
def classAndNameOk : List Char → Bool
  | [] => false
  | c :: cs =>
      c.isDigit && c != '0' &&
        (match cs.dropWhile Char.isDigit with
         | [] => false
         | s :: name => isSepChar s && !name.isEmpty && name.all isCJK)

/-- The student username regex `^202[0-9]届[1-9]\d*[班|級][一-龥]+$`. -/
def studentNameOk (username : String) : Bool :=
  match username.toList with
  | '2' :: '0' :: '2' :: d :: j :: rest =>
      d.isDigit && j == '届' && classAndNameOk rest
  | _ => false

/-- The teacher username regex `^[一-龥]+$`. -/
def teacherNameOk (username : String) : Bool :=
  let cs := username.toList
  !cs.isEmpty && cs.all isCJK

/-- The phone regex `^1[3-9]\d{9}$`. -/
def phoneOk (phone : String) : Bool :=
  match phone.toList with
  | '1' :: c :: rest =>
      c.isDigit && c != '0' && c != '1' && c != '2' &&
        rest.length == 9 && rest.all Char.isDigit
  | _ => false

/-- Error thrown for a malformed student username. -/
def studentFormatError : String :=
  "学生用户名格式不正确，请使用\"2025届X班姓名\"格式（如：2025届1班张三）"

/-- Error thrown for a malformed teacher username. -/
def teacherFormatError : String :=
  "老师用户名格式不正确，请直接使用老师姓名（如：李老师）"

/-- Error thrown for a malformed phone number. -/
def invalidPhoneError : String := "请输入有效的手机号码"

/-- Error thrown for an already-registered phone number. -/
def duplicatePhoneError : String := "该手机号已被注册"

/-- The `newUser` record `register` synthesises on its local path:
`id` is "user-" followed by `Date.now()`, `role: 'user'`, the given
`userType`, the plaintext password, `createdAt` from the clock. -/
def mkNewUser (phone username password : String) (userType : UserType)
    (nowMs : Nat) (nowIso : String) : StoredUser :=
  { id := "user-" ++ toString nowMs, username := username, phone := phone,
    role := Role.user, userType := some userType, password := some password,
    createdAt := nowIso }

/-- The local-fallback branch of `register` (the source's `else` block):
validate username format per user type, phone format, and phone uniqueness,
throwing a descriptive `Error` on each failure; on all passing, append
`newUser` to the roster, persist, adopt the stripped copy as the session, and
return `true`. -/
def registerLocalPath (phone username password : String) (userType : UserType)
    (store : LocalStore) (nowMs : Nat) (nowIso : String) :
    Except String (Bool × SimState × LocalStore) :=
  if userType == UserType.student && !studentNameOk username then
    .error studentFormatError
  else if userType == UserType.teacher && !teacherNameOk username then
    .error teacherFormatError
  else if !phoneOk phone then
    .error invalidPhoneError
  else
    let users := store.users.getD []
    if users.any (fun u => u.phone == phone) then
      .error duplicatePhoneError
    else
      let newUser := mkNewUser phone username password userType nowMs nowIso
      let u2 := stripPassword newUser
      .ok (true, { isAuthenticated := true, user := some u2 },
        { users := some (users ++ [newUser]), currentUser := some u2 })

/-- `register(phone, username, password, userType)`.  On
`result.success && result.data` the remote user is adopted with the password
field stripped; otherwise the local-fallback branch runs.  The `catch` in the
source rethrows every thrown `Error` (and all thrown values are `Error`s), so
the validation errors propagate to the caller as `.error` here. -/
def register (phone username password : String) (userType : UserType)
    (remote : Envelope StoredUser) (store : LocalStore)
    (nowMs : Nat) (nowIso : String) :
    Except String (Bool × SimState × LocalStore) :=
  match remote.success, remote.data with
  | true, some u =>
      let u2 := stripPassword u
      .ok (true, { isAuthenticated := true, user := some u2 },
        setCurrentUser store u2)
  | _, _ => registerLocalPath phone username password userType store nowMs nowIso

/-- `handleZoomIn` of the image viewer: `Math.min(prev + 0.2, 5)`.
The viewer's scale arithmetic is modelled over ℚ; the clamp bounds below are
insensitive to the float rounding of `+ 0.2` because `min`/`max` are exact. -/
def handleZoomIn (scale : ℚ) : ℚ := min (scale + 1/5) 5

/-- `handleZoomOut` of the image viewer: `Math.max(prev - 0.2, 0.2)`. -/
def handleZoomOut (scale : ℚ) : ℚ := max (scale - 1/5) (1/5)

/-- One zoom toolbar action. -/
inductive ZoomOp where
  | zin
  | zout

/-- Apply one zoom action to the scale. -/
def applyZoom : ZoomOp → ℚ → ℚ
  | ZoomOp.zin, s => handleZoomIn s
  | ZoomOp.zout, s => handleZoomOut s

/-- Apply a sequence of zoom actions, left to right. -/
def applyZoomSeq : List ZoomOp → ℚ → ℚ
  | [], s => s
  | op :: ops, s => applyZoomSeq ops (applyZoom op s)

/-! ### Definitions taken from the claims' words (for comparison against the
source-derived definitions above) -/

/-- From C1's words: the result a read operation must produce once the remote
call has failed — the cached value upgraded to a success envelope when one
exists, else the original failure envelope unchanged. -/
def claimFallback {α : Type} (result : Envelope α) (cached : Option α) :
    Envelope α :=
  match cached with
  | some v => { success := true, data := some v }
  | none => result

/-- From C4's words: remote-first with local fallback — a remote envelope
with `success:true` and data present is adopted and persisted; only otherwise
is the roster scanned by plain phone/password equality, the match stripped of
its password, adopted and persisted; else `false` with nothing changed. -/
def loginClaim (phone password : String) (remote : Envelope StoredUser)
    (s : SimState) (store : LocalStore) : Bool × SimState × LocalStore :=
  if h : remote.success = true ∧ remote.data.isSome then
    let u := remote.data.get h.2
    (true, { isAuthenticated := true, user := some u },
      { store with currentUser := some u })
  else
    match (store.users.getD []).find?
        (fun u => u.phone == phone && u.password == some password) with
    | some found =>
        (true, { isAuthenticated := true, user := some (stripPassword found) },
          { store with currentUser := some (stripPassword found) })
    | none => (false, s, store)

/-- From C5's words: the tail of the student pattern with `班` as the one
admissible separator — `<N>班<Chinese name>`. -/
def claimClassAndName : List Char → Bool
  | [] => false
  | c :: cs =>
      c.isDigit && c != '0' &&
        (match cs.dropWhile Char.isDigit with
         | [] => false
         | s :: name => s == '班' && !name.isEmpty && name.all isCJK)

/-- From C5's words: the student username pattern
`<year>届<N>班<Chinese name>` with year prefix 202. -/
def claimStudentPattern (username : String) : Bool :=
  match username.toList with
  | '2' :: '0' :: '2' :: d :: j :: rest =>
      d.isDigit && j == '届' && claimClassAndName rest
  | _ => false

/-- The conjunction of `register`'s local validations, over the source's own
patterns: username format per user type, phone format, phone uniqueness. -/
def registerValidationOk (userType : UserType) (username phone : String)
    (users : List StoredUser) : Bool :=
  (match userType with
   | UserType.student => studentNameOk username
   | UserType.teacher => teacherNameOk username) &&
    phoneOk phone && !(users.any fun u => u.phone == phone)

/-- No password field carried: holds of an absent user and of a user whose
`password` field is absent. -/
def noPw : Option StoredUser → Bool
  | none => true
  | some u => u.password.isNone

/-- A register outcome whose adopted session user and persisted `currentUser`
carry no password field (vacuously true of a raised error, which adopts
nothing). -/
def registerResultNoPw : Except String (Bool × SimState × LocalStore) → Bool
  | Except.error _ => true
  | Except.ok (_, s2, st2) => noPw s2.user && noPw st2.currentUser

/-- A register outcome whose adopted session user is not an admin (vacuously
true of a raised error). -/
def registerOkNotAdmin : Except String (Bool × SimState × LocalStore) → Bool
  | Except.error _ => true
  | Except.ok (_, s2, _) => !isAdmin s2

/-- `true` iff the register outcome is a normal return rather than a raised
error. -/
def registerSucceeds (r : Except String (Bool × SimState × LocalStore)) : Bool :=
  match r with
  | Except.ok _ => true
  | Except.error _ => false

/-- The roster a register outcome persisted, when it returned normally. -/
def registerOkUsers : Except String (Bool × SimState × LocalStore) →
    Option (List StoredUser)
  | Except.error _ => none
  | Except.ok (_, _, st2) => st2.users

/-- The returned boolean and `isAuthenticated` flag of a normally-returned
register outcome. -/
def registerOkAuth : Except String (Bool × SimState × LocalStore) →
    Option (Bool × Bool)
  | Except.error _ => none
  | Except.ok (b, s2, _) => some (b, s2.isAuthenticated)

/-- From C7's amended words: what `apiRequest` returns in every case — the
server body verbatim on an ok response with decodable JSON; otherwise a
failure envelope whose error is `devFallbackMsg` in dev mode, and in
production mode the status message for a non-ok status or the fault's message
(defaulting to `unknownErrorMsg`) for a transport/decode fault. -/
def apiRequestAmendedSpec {α : Type} (isDev : Bool) : FetchOutcome α → Envelope α
  | .resp true _ (.ok body) => body
  | .resp true _ (.error e) =>
      { success := false,
        error := some (if isDev then devFallbackMsg else e.getD unknownErrorMsg) }
  | .resp false status _ =>
      { success := false,
        error := some (if isDev then devFallbackMsg else statusMsg status) }
  | .reject e =>
      { success := false,
        error := some (if isDev then devFallbackMsg else e.getD unknownErrorMsg) }

/-- A concrete roster record carrying the reserved admin phone and role, with
the stored default password, as `ensureAdminExists` persists it. -/
def adminStored (createdAt : String) : StoredUser :=
  { DEFAULT_ADMIN createdAt with password := some "admin123" }

/-- A concrete remote-user payload that carries a password field, for the C8
counterexample. -/
def pwRemoteUser : StoredUser :=
  { id := "u1", username := "王五", phone := "13900000001", role := Role.user,
    userType := none, createdAt := "t", password := some "pw" }

/-! ### Theorems -/

theorem readWithLocalFallback_of_fail {α : Type} {r : Envelope α} (c : Option α)
    (h : r.success = false) : readWithLocalFallback r c = claimFallback r c := by
  unfold readWithLocalFallback claimFallback
  rw [h]
  cases c <;> simp

/-- C1: for every read operation of every resource module, when the remote
call yields a failure envelope the operation returns `{success:true, data:c}`
for the value `c` cached under that resource's key if one exists, and the
original failure envelope unchanged if none does (both cases are the
definition of `claimFallback`). -/
theorem C1_read_fallback {α : Type} (isDev : Bool) (f : FetchOutcome α)
    (store : CacheStore α) (hfail : (apiRequest isDev f).success = false) :
    getSubmittedWorks isDev f store
        = claimFallback (apiRequest isDev f) (store submittedWorksKey) ∧
    getFeaturedWorks isDev f store
        = claimFallback (apiRequest isDev f) (store featuredWorksKey) ∧
    getMessages isDev f store
        = claimFallback (apiRequest isDev f) (store messagesKey) ∧
    getActivities isDev f store
        = claimFallback (apiRequest isDev f) (store votingActivitiesKey) ∧
    getKnowledgeItems isDev f store
        = claimFallback (apiRequest isDev f) (store photographyKnowledgeKey) :=
  ⟨readWithLocalFallback_of_fail _ hfail, readWithLocalFallback_of_fail _ hfail,
    readWithLocalFallback_of_fail _ hfail, readWithLocalFallback_of_fail _ hfail,
    readWithLocalFallback_of_fail _ hfail⟩

theorem C1_read_fallback_witness :
    ((apiRequest (α := Nat) false (.reject none)).success = false) ∧
    (getSubmittedWorks false (.reject none) (fun _ => some 7)
        = claimFallback (apiRequest false (.reject none))
            ((fun _ => some 7) submittedWorksKey) ∧
     getFeaturedWorks false (.reject none) (fun _ => some 7)
        = claimFallback (apiRequest false (.reject none))
            ((fun _ => some 7) featuredWorksKey) ∧
     getMessages false (.reject none) (fun _ => some 7)
        = claimFallback (apiRequest false (.reject none))
            ((fun _ => some 7) messagesKey) ∧
     getActivities false (.reject none) (fun _ => some 7)
        = claimFallback (apiRequest false (.reject none))
            ((fun _ => some 7) votingActivitiesKey) ∧
     getKnowledgeItems false (.reject none) (fun _ => some 7)
        = claimFallback (apiRequest false (.reject none))
            ((fun _ => some 7) photographyKnowledgeKey)) :=
  ⟨rfl, C1_read_fallback false (.reject none) (fun _ => some 7) rfl⟩

/-- C2: each write operation (`submitWork`, `postMessage`, `vote`) surfaces a
remote failure as a `success:false` envelope and leaves every local cache key
untouched — the returned store is the input store. -/
theorem C2_write_asymmetry {α : Type} (w m : α) (aid : String) (wid : Int)
    (isDev : Bool) (f : FetchOutcome α) (store : CacheStore α)
    (hfail : (apiRequest isDev f).success = false) :
    ((submitWork w isDev f store).1.success = false ∧
      (submitWork w isDev f store).2 = store) ∧
    ((postMessage m isDev f store).1.success = false ∧
      (postMessage m isDev f store).2 = store) ∧
    ((vote aid wid isDev f store).1.success = false ∧
      (vote aid wid isDev f store).2 = store) :=
  ⟨⟨hfail, rfl⟩, ⟨hfail, rfl⟩, ⟨hfail, rfl⟩⟩

theorem C2_write_asymmetry_witness :
    ((apiRequest (α := Nat) false (.reject none)).success = false) ∧
    (((submitWork 0 false (.reject none) (fun _ => none)).1.success = false ∧
       (submitWork 0 false (.reject none) (fun _ => none)).2
         = (fun _ => (none : Option Nat))) ∧
     ((postMessage 0 false (.reject none) (fun _ => none)).1.success = false ∧
       (postMessage 0 false (.reject none) (fun _ => none)).2
         = (fun _ => (none : Option Nat))) ∧
     ((vote "a" 1 false (.reject none) (fun _ => (none : Option Nat))).1.success = false ∧
       (vote "a" 1 false (.reject none) (fun _ => (none : Option Nat))).2
         = (fun _ => (none : Option Nat)))) :=
  ⟨rfl, C2_write_asymmetry 0 0 "a" 1 false (.reject none) (fun _ => none) rfl⟩

/-- C4: `login` is exactly the claim's remote-first/local-fallback policy
(`loginClaim`): adopt a remote success-with-data verbatim; only otherwise
scan the roster by plain phone/password equality, strip the password, adopt
and persist; else return `false` with state and store unchanged.  Both sides
are total functions, so no exception is raised in any case. -/
theorem C4_login_precedence (phone password : String)
    (remote : Envelope StoredUser) (s : SimState) (store : LocalStore) :
    login phone password remote s store
      = loginClaim phone password remote s store := by
  rcases remote with ⟨success, data, error⟩
  cases success <;> cases data <;> rfl

theorem apiRequest_WF {α : Type} (isDev : Bool) (f : FetchOutcome α)
    (hbody : optWF (bodyOf f)) : envelopeWF (apiRequest isDev f) := by
  cases f with
  | reject e => cases isDev <;> simp [apiRequest, apiRequestTry, envelopeWF]
  | resp ok status json =>
      cases ok with
      | false => cases isDev <;> simp [apiRequest, apiRequestTry, envelopeWF]
      | true =>
          cases json with
          | ok body => simpa [apiRequest, apiRequestTry, bodyOf, optWF] using hbody
          | error e => cases isDev <;> simp [apiRequest, apiRequestTry, envelopeWF]

theorem readWithLocalFallback_WF {α : Type} {r : Envelope α} (c : Option α)
    (h : envelopeWF r) : envelopeWF (readWithLocalFallback r c) := by
  cases hs : r.success with
  | false =>
      cases c with
      | none => simpa [readWithLocalFallback, hs] using h
      | some v => simp [readWithLocalFallback, hs, envelopeWF]
  | true => simpa [readWithLocalFallback, hs] using h

/-- C6: the envelope invariant (`data` present iff `success`) holds of the
envelope returned by `apiRequest` and by every resource-module operation,
for any store contents, provided the verbatim-forwarded server body (when the
response is ok and decodes) itself satisfies the invariant — the shape the
spec's interface contract requires of the server. -/
theorem C6_envelope_invariant {α : Type} (isDev : Bool) (f : FetchOutcome α)
    (store : CacheStore α) (w m : α) (aid : String) (wid : Int)
    (hbody : optWF (bodyOf f)) :
    envelopeWF (apiRequest isDev f) ∧
    envelopeWF (getSubmittedWorks isDev f store) ∧
    envelopeWF (getFeaturedWorks isDev f store) ∧
    envelopeWF (getMessages isDev f store) ∧
    envelopeWF (getActivities isDev f store) ∧
    envelopeWF (getKnowledgeItems isDev f store) ∧
    envelopeWF (submitWork w isDev f store).1 ∧
    envelopeWF (postMessage m isDev f store).1 ∧
    envelopeWF (vote aid wid isDev f store).1 :=
  ⟨apiRequest_WF isDev f hbody,
    readWithLocalFallback_WF _ (apiRequest_WF isDev f hbody),
    readWithLocalFallback_WF _ (apiRequest_WF isDev f hbody),
    readWithLocalFallback_WF _ (apiRequest_WF isDev f hbody),
    readWithLocalFallback_WF _ (apiRequest_WF isDev f hbody),
    readWithLocalFallback_WF _ (apiRequest_WF isDev f hbody),
    apiRequest_WF isDev f hbody, apiRequest_WF isDev f hbody,
    apiRequest_WF isDev f hbody⟩

theorem C6_envelope_invariant_witness :
    optWF (bodyOf (FetchOutcome.reject (α := Nat) none)) ∧
    (envelopeWF (apiRequest false (FetchOutcome.reject (α := Nat) none)) ∧
     envelopeWF (getSubmittedWorks false (.reject none) (fun _ => (none : Option Nat))) ∧
     envelopeWF (getFeaturedWorks false (.reject none) (fun _ => (none : Option Nat))) ∧
     envelopeWF (getMessages false (.reject none) (fun _ => (none : Option Nat))) ∧
     envelopeWF (getActivities false (.reject none) (fun _ => (none : Option Nat))) ∧
     envelopeWF (getKnowledgeItems false (.reject none) (fun _ => (none : Option Nat))) ∧
     envelopeWF (submitWork 0 false (.reject none) (fun _ => (none : Option Nat))).1 ∧
     envelopeWF (postMessage 0 false (.reject none) (fun _ => (none : Option Nat))).1 ∧
     envelopeWF (vote "a" 1 false (.reject none) (fun _ => (none : Option Nat))).1) :=
  ⟨trivial,
    C6_envelope_invariant false (.reject none) (fun _ => none) 0 0 "a" 1 trivial⟩

/-- C7 as stated is false: in dev mode, a non-ok HTTP status is reported with
the "service unavailable, falling back to local storage" message, not the
"API request failed: <status>" message, because the status error is thrown
inside the same `try` whose `catch` takes the dev-mode branch.  Concretely: a
500 status in dev mode. -/
theorem C7_counterexample :
    apiRequest (α := Unit) true (.resp false 500 (.error none)) =
      { success := false, data := none, error := some devFallbackMsg } ∧
    devFallbackMsg ≠ statusMsg 500 :=
  ⟨rfl, by decide⟩

/-- C7 amended: `apiRequest` never raises — it equals the total function
`apiRequestAmendedSpec`, which returns the server body verbatim on an ok
decodable response and otherwise a `success:false` envelope whose error is:
in production mode, "API请求失败: <status>" for a non-ok status and the
fault's message (default "未知错误") for a transport/decode fault; in dev
mode, "API服务不可用，正在使用本地存储" for every failure. -/
theorem C7_amended_no_throw {α : Type} (isDev : Bool) (f : FetchOutcome α) :
    apiRequest isDev f = apiRequestAmendedSpec isDev f := by
  cases f with
  | reject e => cases isDev <;> rfl
  | resp ok status json => cases ok <;> cases json <;> cases isDev <;> rfl

/-- C3 as stated is false: it quantifies over every starting roster, but from
a roster already holding two records with `role=admin` and the reserved
phone, one run of `ensureAdminExists` leaves both — the routine only ever
adds a missing admin record, it never deduplicates. -/
theorem C3_counterexample :
    countReservedAdmins ((ensureAdminExists "t0"
        { users := some [adminStored "a", adminStored "b"] }).users.getD []) ≠ 1 := by
  decide

/-- C3 amended: from any roster holding at most one record with `role=admin`
and the reserved admin phone (which covers the empty roster and a roster from
which the admin record was deleted), one run of `ensureAdminExists` leaves
exactly one such record, and any further run is the identity on the result —
so the count is exactly one after each of N ≥ 1 runs. -/
theorem C3_admin_self_heal_amended (now now2 : String) (store : LocalStore)
    (h : countReservedAdmins (store.users.getD []) ≤ 1) :
    countReservedAdmins ((ensureAdminExists now store).users.getD []) = 1 ∧
    ensureAdminExists now2 (ensureAdminExists now store)
      = ensureAdminExists now store := by
  cases hany : (store.users.getD []).any
      (fun u => u.role == Role.admin && u.phone == adminPhone) with
  | false =>
      have hp : ((fun (u : StoredUser) => u.role == Role.admin && u.phone == adminPhone)
          { DEFAULT_ADMIN now with password := some "admin123" }) = true := rfl
      have h0 : countReservedAdmins (store.users.getD []) = 0 := by
        simp only [countReservedAdmins]
        rw [List.countP_eq_zero]
        exact List.any_eq_false.mp hany
      have hens : ensureAdminExists now store
          = { store with users := some ((store.users.getD []) ++
              [{ DEFAULT_ADMIN now with password := some "admin123" }]) } := by
        simp [ensureAdminExists, safeLocalStorageGetUsers,
          safeLocalStorageSetUsers, hany]
      constructor
      · rw [hens]
        simp only [countReservedAdmins] at h0 ⊢
        simp [List.countP_append, List.countP_cons, h0, hp]
      · rw [hens]
        have hany2 : (((store.users.getD []) ++
            [{ DEFAULT_ADMIN now with password := some "admin123" }]).any
              (fun u => u.role == Role.admin && u.phone == adminPhone)) = true := by
          rw [List.any_eq_true]
          exact ⟨_, List.mem_append_right _ (List.mem_singleton_self _), hp⟩
        simp [ensureAdminExists, safeLocalStorageGetUsers, hany2]
  | true =>
      have hens : ensureAdminExists now store = store := by
        simp [ensureAdminExists, safeLocalStorageGetUsers, hany]
      have hpos : 0 < countReservedAdmins (store.users.getD []) := by
        simp only [countReservedAdmins]
        rw [List.countP_pos_iff]
        obtain ⟨x, hx, hpx⟩ := List.any_eq_true.mp hany
        exact ⟨x, hx, hpx⟩
      refine ⟨?_, ?_⟩
      · rw [hens]; omega
      · rw [hens]
        simp [ensureAdminExists, safeLocalStorageGetUsers, hany]

theorem C3_admin_self_heal_amended_witness :
    countReservedAdmins (({ users := none, currentUser := none } :
        LocalStore).users.getD []) ≤ 1 ∧
    (countReservedAdmins ((ensureAdminExists "t1"
        { users := none, currentUser := none }).users.getD []) = 1 ∧
     ensureAdminExists "t2" (ensureAdminExists "t1"
        { users := none, currentUser := none })
       = ensureAdminExists "t1" { users := none, currentUser := none }) :=
  ⟨by decide,
    C3_admin_self_heal_amended "t1" "t2" { users := none, currentUser := none }
      (by decide)⟩

theorem register_of_remote_fail (phone username pw : String) (ut : UserType)
    (remote : Envelope StoredUser) (store : LocalStore) (nowMs : Nat)
    (nowIso : String) (hfail : remote.success = false ∨ remote.data = none) :
    register phone username pw ut remote store nowMs nowIso
      = registerLocalPath phone username pw ut store nowMs nowIso := by
  rcases remote with ⟨su, da, er⟩
  rcases hfail with h | h
  · have hs : su = false := h
    subst hs
    cases da <;> rfl
  · have hd : da = none := h
    subst hd
    cases su <;> rfl

theorem registerLocalPath_spec (phone username pw : String) (ut : UserType)
    (store : LocalStore) (nowMs : Nat) (nowIso : String) :
    (registerValidationOk ut username phone (store.users.getD []) = false →
      registerSucceeds (registerLocalPath phone username pw ut store nowMs nowIso)
        = false) ∧
    (registerValidationOk ut username phone (store.users.getD []) = true →
      registerLocalPath phone username pw ut store nowMs nowIso
        = .ok (true,
            { isAuthenticated := true,
              user := some (stripPassword
                (mkNewUser phone username pw ut nowMs nowIso)) },
            { users := some ((store.users.getD [])
                ++ [mkNewUser phone username pw ut nowMs nowIso]),
              currentUser := some (stripPassword
                (mkNewUser phone username pw ut nowMs nowIso)) })) := by
  have e1 : (UserType.student == UserType.student) = true := rfl
  have e2 : (UserType.student == UserType.teacher) = false := rfl
  have e3 : (UserType.teacher == UserType.student) = false := rfl
  have e4 : (UserType.teacher == UserType.teacher) = true := rfl
  cases ut with
  | student =>
      cases hs : studentNameOk username <;>
        cases hp : phoneOk phone <;>
          cases hd : (store.users.getD []).any (fun u => u.phone == phone) <;>
            simp [registerLocalPath, registerValidationOk, registerSucceeds,
              e1, e2, hs, hp, hd]
  | teacher =>
      cases hs : teacherNameOk username <;>
        cases hp : phoneOk phone <;>
          cases hd : (store.users.getD []).any (fun u => u.phone == phone) <;>
            simp [registerLocalPath, registerValidationOk, registerSucceeds,
              e3, e4, hs, hp, hd]

/-- C5 as stated is false: the source's student-username regex uses the
character class `[班|級]`, which also accepts `級` (and a literal `|`), so
with the remote path failing, registering the username "2025届1級张三" —
which does not match the claim's `<year>届<N>班<Chinese name>` pattern —
raises no error and succeeds. -/
theorem C5_counterexample :
    claimStudentPattern "2025届1級张三" = false ∧
    registerSucceeds (register "13912345678" "2025届1級张三" "pw"
        UserType.student { success := false }
        { users := none, currentUser := none } 0 "t") = true := by
  decide

/-- C5 amended: with the remote path failing, `register` raises a descriptive
error exactly when local validation fails, where the student username pattern
is the source's `202<digit>届<N><sep><Chinese name>` with `<sep>` any of
`班`, `級` or a literal `|` (not `班` alone as the claim stated); on teacher
usernames that are not purely Chinese; on phones failing the 11-digit CN
mobile pattern; and on phones already in the roster.  When every validation
passes, the new record is appended to the roster, the session is
auto-authenticated with the stripped record, and `true` is returned. -/
theorem C5_registration_validation_amended (phone username pw : String)
    (ut : UserType) (remote : Envelope StoredUser) (store : LocalStore)
    (nowMs : Nat) (nowIso : String)
    (hfail : remote.success = false ∨ remote.data = none) :
    (registerValidationOk ut username phone (store.users.getD []) = false →
      registerSucceeds (register phone username pw ut remote store nowMs nowIso)
        = false) ∧
    (registerValidationOk ut username phone (store.users.getD []) = true →
      register phone username pw ut remote store nowMs nowIso
        = .ok (true,
            { isAuthenticated := true,
              user := some (stripPassword
                (mkNewUser phone username pw ut nowMs nowIso)) },
            { users := some ((store.users.getD [])
                ++ [mkNewUser phone username pw ut nowMs nowIso]),
              currentUser := some (stripPassword
                (mkNewUser phone username pw ut nowMs nowIso)) })) := by
  rw [register_of_remote_fail phone username pw ut remote store nowMs nowIso hfail]
  exact registerLocalPath_spec phone username pw ut store nowMs nowIso

theorem C5_registration_validation_amended_witness :
    (({ success := false } : Envelope StoredUser).success = false ∨
      ({ success := false } : Envelope StoredUser).data = none) ∧
    ((registerValidationOk UserType.student "2025届1班张三" "13912345678"
        (({ users := none, currentUser := none } : LocalStore).users.getD [])
          = false →
      registerSucceeds (register "13912345678" "2025届1班张三" "pw"
        UserType.student { success := false }
        { users := none, currentUser := none } 0 "t") = false) ∧
     (registerValidationOk UserType.student "2025届1班张三" "13912345678"
        (({ users := none, currentUser := none } : LocalStore).users.getD [])
          = true →
      register "13912345678" "2025届1班张三" "pw" UserType.student
        { success := false } { users := none, currentUser := none } 0 "t"
        = .ok (true,
            { isAuthenticated := true,
              user := some (stripPassword (mkNewUser "13912345678"
                "2025届1班张三" "pw" UserType.student 0 "t")) },
            { users := some ((({ users := none, currentUser := none } :
                LocalStore).users.getD [])
                ++ [mkNewUser "13912345678" "2025届1班张三" "pw"
                      UserType.student 0 "t"]),
              currentUser := some (stripPassword (mkNewUser "13912345678"
                "2025届1班张三" "pw" UserType.student 0 "t")) }))) :=
  ⟨Or.inl rfl,
    C5_registration_validation_amended "13912345678" "2025届1班张三" "pw"
      UserType.student { success := false } { users := none, currentUser := none }
      0 "t" (Or.inl rfl)⟩

theorem registerLocalPath_noPw (phone username pw : String) (ut : UserType)
    (store : LocalStore) (nowMs : Nat) (nowIso : String) :
    registerResultNoPw (registerLocalPath phone username pw ut store nowMs nowIso)
      = true := by
  unfold registerLocalPath
  split
  · rfl
  · split
    · rfl
    · split
      · rfl
      · cases hd : (store.users.getD []).any (fun u => u.phone == phone) <;>
          simp [hd, registerResultNoPw, noPw, stripPassword]

theorem registerLocalPath_notAdmin (phone username pw : String) (ut : UserType)
    (store : LocalStore) (nowMs : Nat) (nowIso : String) :
    registerOkNotAdmin (registerLocalPath phone username pw ut store nowMs nowIso)
      = true := by
  unfold registerLocalPath
  split
  · rfl
  · split
    · rfl
    · split
      · rfl
      · cases hd : (store.users.getD []).any (fun u => u.phone == phone) <;>
          simp [hd, registerOkNotAdmin, isAdmin, stripPassword, mkNewUser]

theorem login_noPw_of_fallback (phone pw : String) (remote : Envelope StoredUser)
    (s : SimState) (store : LocalStore)
    (hfail : remote.success = false ∨ remote.data = none)
    (hs : noPw s.user = true) (hst : noPw store.currentUser = true) :
    noPw (login phone pw remote s store).2.1.user = true ∧
    noPw (login phone pw remote s store).2.2.currentUser = true := by
  rcases remote with ⟨su, da, er⟩
  have hred : login phone pw ⟨su, da, er⟩ s store
      = (match (safeLocalStorageGetUsers store []).find?
            (fun u => u.phone == phone && u.password == some pw) with
        | some found =>
            (true, { isAuthenticated := true, user := some (stripPassword found) },
              setCurrentUser store (stripPassword found))
        | none => (false, s, store)) := by
    rcases hfail with h | h
    · have hsu : su = false := h
      subst hsu; cases da <;> rfl
    · have hda : da = none := h
      subst hda; cases su <;> rfl
  rw [hred]
  cases hf : (safeLocalStorageGetUsers store []).find?
      (fun u => u.phone == phone && u.password == some pw) with
  | some found => simp [noPw, stripPassword, setCurrentUser]
  | none =>
      simp only [hf]
      exact ⟨hs, hst⟩

/-- C8 as stated is false: `login`'s remote-success path adopts and persists
`result.data` verbatim, with no password stripping (unlike `register`'s
remote path), so a remote payload that carries a password field is adopted as
the session user and persisted as `currentUser` still carrying it. -/
theorem C8_counterexample :
    (login "13900000001" "x" { success := true, data := some pwRemoteUser }
        { isAuthenticated := false, user := none }
        { users := none, currentUser := none }).2.1.user = some pwRemoteUser ∧
    (login "13900000001" "x" { success := true, data := some pwRemoteUser }
        { isAuthenticated := false, user := none }
        { users := none, currentUser := none }).2.2.currentUser
      = some pwRemoteUser ∧
    pwRemoteUser.password ≠ none := by
  decide

/-- C8 amended: `register` strips the password field on both its paths and
`login` strips it on its local-fallback path; `login`'s remote-success path
adopts the remote data verbatim, so the session user and persisted
`currentUser` never carry a password field provided the remote envelope's
data carries none (and the states being preserved on a failed login carried
none). -/
theorem C8_no_password_amended (phone pw username : String) (ut : UserType)
    (remote : Envelope StoredUser) (s : SimState) (store : LocalStore)
    (nowMs : Nat) (nowIso : String)
    (hremote : noPw remote.data = true) (hs : noPw s.user = true)
    (hst : noPw store.currentUser = true) :
    noPw (login phone pw remote s store).2.1.user = true ∧
    noPw (login phone pw remote s store).2.2.currentUser = true ∧
    registerResultNoPw (register phone username pw ut remote store nowMs nowIso)
      = true := by
  have hreg : registerResultNoPw
      (register phone username pw ut remote store nowMs nowIso) = true := by
    rcases remote with ⟨su, da, er⟩
    cases su with
    | true =>
        cases da with
        | some u =>
            simp [register, registerResultNoPw, noPw, stripPassword, setCurrentUser]
        | none =>
            rw [register_of_remote_fail phone username pw ut ⟨true, none, er⟩
              store nowMs nowIso (Or.inr rfl)]
            exact registerLocalPath_noPw phone username pw ut store nowMs nowIso
    | false =>
        rw [register_of_remote_fail phone username pw ut ⟨false, da, er⟩
          store nowMs nowIso (Or.inl rfl)]
        exact registerLocalPath_noPw phone username pw ut store nowMs nowIso
  rcases remote with ⟨su, da, er⟩
  cases su with
  | true =>
      cases da with
      | some u => exact ⟨hremote, hremote, hreg⟩
      | none =>
          obtain ⟨h1, h2⟩ := login_noPw_of_fallback phone pw ⟨true, none, er⟩
            s store (Or.inr rfl) hs hst
          exact ⟨h1, h2, hreg⟩
  | false =>
      obtain ⟨h1, h2⟩ := login_noPw_of_fallback phone pw ⟨false, da, er⟩
        s store (Or.inl rfl) hs hst
      exact ⟨h1, h2, hreg⟩

theorem C8_no_password_amended_witness :
    noPw ({ success := false } : Envelope StoredUser).data = true ∧
    noPw ({ isAuthenticated := false, user := none } : SimState).user = true ∧
    noPw ({ users := none, currentUser := none } : LocalStore).currentUser = true ∧
    (noPw (login "13800138000" "admin123" { success := false }
        { isAuthenticated := false, user := none }
        { users := none, currentUser := none }).2.1.user = true ∧
     noPw (login "13800138000" "admin123" { success := false }
        { isAuthenticated := false, user := none }
        { users := none, currentUser := none }).2.2.currentUser = true ∧
     registerResultNoPw (register "13800138000" "张三" "admin123"
        UserType.teacher { success := false }
        { users := none, currentUser := none } 0 "t") = true) :=
  ⟨rfl, rfl, rfl,
    C8_no_password_amended "13800138000" "admin123" "张三" UserType.teacher
      { success := false } { isAuthenticated := false, user := none }
      { users := none, currentUser := none } 0 "t" rfl rfl rfl⟩

/-- C9: with the remote path failing, every user record created by
`register`'s local-fallback path has role `user`, never `admin`: the
synthesised record's role is `user`, a normal return appends exactly that
record to the roster, and the adopted session satisfies `isAdmin = false`. -/
theorem C9_register_role_user (phone username pw : String) (ut : UserType)
    (remote : Envelope StoredUser) (store : LocalStore) (nowMs : Nat)
    (nowIso : String) (hfail : remote.success = false ∨ remote.data = none) :
    (mkNewUser phone username pw ut nowMs nowIso).role = Role.user ∧
    registerOkNotAdmin (register phone username pw ut remote store nowMs nowIso)
      = true ∧
    (registerSucceeds (register phone username pw ut remote store nowMs nowIso)
        = true →
      registerOkUsers (register phone username pw ut remote store nowMs nowIso)
        = some ((store.users.getD [])
            ++ [mkNewUser phone username pw ut nowMs nowIso])) := by
  rw [register_of_remote_fail phone username pw ut remote store nowMs nowIso hfail]
  refine ⟨rfl, registerLocalPath_notAdmin phone username pw ut store nowMs nowIso, ?_⟩
  intro hok
  cases hv : registerValidationOk ut username phone (store.users.getD []) with
  | false =>
      have hfalse := (registerLocalPath_spec phone username pw ut store nowMs nowIso).1 hv
      rw [hok] at hfalse
      exact Bool.noConfusion hfalse
  | true =>
      rw [(registerLocalPath_spec phone username pw ut store nowMs nowIso).2 hv]
      rfl

theorem C9_register_role_user_witness :
    (({ success := false } : Envelope StoredUser).success = false ∨
      ({ success := false } : Envelope StoredUser).data = none) ∧
    ((mkNewUser "13912345678" "李老师" "pw" UserType.teacher 0 "t").role
        = Role.user ∧
     registerOkNotAdmin (register "13912345678" "李老师" "pw" UserType.teacher
        { success := false } { users := none, currentUser := none } 0 "t")
        = true ∧
     (registerSucceeds (register "13912345678" "李老师" "pw" UserType.teacher
          { success := false } { users := none, currentUser := none } 0 "t")
          = true →
       registerOkUsers (register "13912345678" "李老师" "pw" UserType.teacher
          { success := false } { users := none, currentUser := none } 0 "t")
         = some ((({ users := none, currentUser := none } :
              LocalStore).users.getD [])
             ++ [mkNewUser "13912345678" "李老师" "pw" UserType.teacher 0 "t"]))) :=
  ⟨Or.inl rfl,
    C9_register_role_user "13912345678" "李老师" "pw" UserType.teacher
      { success := false } { users := none, currentUser := none } 0 "t"
      (Or.inl rfl)⟩

theorem zoomSeq_invariant (ops : List ZoomOp) :
    ∀ s : ℚ, 1/5 ≤ s → s ≤ 5 →
      1/5 ≤ applyZoomSeq ops s ∧ applyZoomSeq ops s ≤ 5 := by
  induction ops with
  | nil => exact fun s h1 h2 => ⟨h1, h2⟩
  | cons op ops ih =>
      intro s h1 h2
      simp only [applyZoomSeq]
      refine ih (applyZoom op s) ?_ ?_
      · cases op with
        | zin =>
            show (1:ℚ)/5 ≤ min (s + 1/5) 5
            exact le_min (by linarith) (by norm_num)
        | zout =>
            show (1:ℚ)/5 ≤ max (s - 1/5) (1/5)
            exact le_max_right _ _
      · cases op with
        | zin =>
            show min (s + 1/5) 5 ≤ (5:ℚ)
            exact min_le_right _ _
        | zout =>
            show max (s - 1/5) (1/5) ≤ (5:ℚ)
            exact max_le (by linarith) (by norm_num)

/-- C10: `handleZoomIn` never produces a scale above 5, `handleZoomOut` never
produces one below 0.2, and any sequence of zoom-in/zoom-out operations from
the initial scale 1 keeps the scale within [0.2, 5]. -/
theorem C10_zoom_clamped :
    (∀ s : ℚ, handleZoomIn s ≤ 5) ∧
    (∀ s : ℚ, 1/5 ≤ handleZoomOut s) ∧
    (∀ ops : List ZoomOp, 1/5 ≤ applyZoomSeq ops 1 ∧ applyZoomSeq ops 1 ≤ 5) :=
  ⟨fun _ => min_le_right _ _, fun _ => le_max_right _ _,
    fun ops => zoomSeq_invariant ops 1 (by norm_num) (by norm_num)⟩

end Club
